import Mathlib

/-!
Verification development for the queue/call-state core of the AviaxMusic
bot (`AviaxMusic/core/call.py`).  The stateful methods of the `Call`
class are embedded shallowly: the per-chat mutable state (queue map
entry, loop counter store, active flags) becomes an explicit
`ChatState`, outbound calls to the voice-chat engine and to Telegram
become an explicit list of `Eff` events, and the external collaborators
(YouTube resolution, engine play success, formatters) become an `Env`
record of oracles.  Fallible paths return `Option`/an error field, so
an uncaught Python exception is visible as `none`/`err`.
-/

/-- Leading-segment test on character lists: `leadMatch n h` is true when
`h` begins with `n` (helper for the Python substring operator). -/
def leadMatch : List Char → List Char → Bool
  | [], _ => true
  | _ :: _, [] => false
  | a :: as, b :: bs => a == b && leadMatch as bs

/-- Substring occurrence on character lists. -/
def occursIn (n : List Char) : List Char → Bool
  | [] => leadMatch n []
  | b :: bs => leadMatch n (b :: bs) || occursIn n bs

/-- Python's `needle in hay` on strings: substring containment.  This is
what `change_stream` uses on the `file` marker (`"live_" in queued`
etc.), and what `join_call` uses on lowered error messages. -/
def pyIn (needle hay : String) : Bool :=
  occursIn needle.toList hay.toList

/-- Decimal rendering of a natural number (fuelled, fuel `n+1` always
suffices since `n / 10 < n` for `n ≥ 10`). -/
def natStrCore : Nat → Nat → List Char → List Char
  | 0, _, acc => acc
  | fuel + 1, n, acc =>
    let d := Char.ofNat (48 + n % 10)
    if n < 10 then d :: acc else natStrCore fuel (n / 10) (d :: acc)

/-- Decimal rendering of a natural number. -/
def natStr (n : Nat) : String :=
  ⟨natStrCore (n + 1) n []⟩

/-- One entry of a chat's play queue (the Python dict produced by the
play plugins; the fields `call.py` reads and writes).  `by` is a Lean
keyword, so the requester field is named `by_user`.  `old_dur` /
`old_second` are absent (`none`) until a speed change snapshots them;
`speed` is kept as the string Python compares against (`str(speed)`). -/
structure Track where
  file : String
  title : String
  by_user : String
  chat_id : Int
  streamtype : String
  vidid : String
  played : Int
  dur : String
  seconds : Int
  old_dur : Option String := none
  old_second : Option Int := none
  speed_path : Option String := none
  speed : String := "1.0"
  mystic : Option Nat := none
  markup : Option String := none
deriving DecidableEq, Repr

/-- The per-chat slice of the process-wide mutable state touched by
`call.py`: the chat's entry in the queue map `db` (`none` when the map
has no list for this chat id), the loop counter held by the external
store (`get_loop`/`set_loop`, non-negative per the store), the
active-chat / active-video-chat / music-on flags, and the autoend
bookkeeping (`counter[chat_id]` set, `autoend[chat_id]` deadline). -/
structure ChatState where
  queue : Option (List Track)
  loop : Nat
  activeChat : Bool
  activeVideoChat : Bool
  musicOn : Bool
  counterSet : Bool := false
  autoendDeadline : Option Nat := none
deriving DecidableEq, Repr

/-- Outbound events: calls into the voice-chat engine and the Telegram
messaging collaborator, recorded in order. -/
inductive Eff where
  | setLoop (chat : Int) (n : Nat)
  | autoClean (popped : Option Track)
  | leaveCall (chat : Int)
  | assistantLeave (idx : Nat) (chat : Int)
  | play (chat : Int) (source : String) (video : Bool)
  | sendMessage (chat : Int) (text : String)
  | editMessage (chat : Int) (text : String)
  | deleteMessage (chat : Int)
  | sendPhoto (chat : Int) (caption : String)
  | logError (text : String)
  | ffmpeg (input : String) (output : String)
deriving DecidableEq, Repr

/-- Oracles for the external collaborators of `call.py`:
`ytVideo v = none` models `YouTube.video` returning `n == 0` (live
resolution failure); `ytDownload v = none` models `YouTube.download`
raising; `playOk s` tells whether the engine's `play` succeeds on
source `s`; `joinPlay = some msg` models the `join_call` play attempt
raising an exception whose text is `msg`; the formatter fields model
`check_duration`, `speed_converter`, `seconds_to_min`; `fileExists`
models the transcode cache test; `participants` models
`get_participants` (`none` = raises). -/
structure Env where
  ytVideo : String → Option String
  ytDownload : String → Option String
  playOk : String → Bool
  joinPlay : Option String := none
  check_duration : String → Nat := fun _ => 0
  speed_converter : Int → String → Int × Int := fun p _ => (p, p)
  seconds_to_min : Nat → String := fun _ => ""
  fileExists : String → Bool := fun _ => false
  is_autoend : Bool := false
  participants : Option Nat := none
  now : Nat := 0

/-- `_clear_(chat_id)`: set the chat's queue-map entry to the empty
list and drop the active-video-chat and active-chat flags. -/
def clear_state (st : ChatState) : ChatState :=
  { st with queue := some [], activeVideoChat := false, activeChat := false }

/-- Head bookkeeping performed at the top of `change_stream`'s success
branch: `played := 0`; when a speed change left `old_dur`, restore
`dur`/`seconds` from the snapshot and clear the speed override.
`none` models the uncaught `KeyError` when `old_dur` is set but
`old_second` is missing (the source reads `check[0]["old_second"]`
without a guard). -/
def advHead (t : Track) : Option Track :=
  let t1 := { t with played := 0 }
  match t1.old_dur with
  | none => some t1
  | some d =>
    match t1.old_second with
    | none => none
    | some s =>
      some { t1 with dur := d, seconds := s, speed_path := none, speed := "1.0" }

/-- Which resolution path `change_stream` takes for a new head. -/
inductive Route where
  | live
  | download
  | index
  | direct
deriving DecidableEq, Repr

/-- The `if "live_" in queued / elif "vid_" in queued / elif "index_"
in queued / else` chain of `change_stream`: substring containment,
tested in that order. -/
def dispatchRoute (queued : String) : Route :=
  if pyIn "live_" queued then Route.live
  else if pyIn "vid_" queued then Route.download
  else if pyIn "index_" queued then Route.index
  else Route.direct

/-- The `else` branch of `change_stream`'s try statement: the queue is
non-empty, reset the head's bookkeeping, then resolve and play the head
according to its `file` marker.  `q` is the current queue list
(already popped when loop was 0).  Localised strings are modelled by
their string-table keys (`call_6`, `call_7`, `stream_1`, `stream_2`). -/
def advanceQueue (env : Env) (chat : Int) (st : ChatState) (q : List Track)
    (effs : List Eff) : Option (ChatState × List Eff) :=
  match q with
  | [] => none
  | h :: rest =>
    match advHead h with
    | none => none
    | some h1 =>
      let queued := h.file
      let video := h.streamtype == "video"
      let stBase := { st with queue := some (h1 :: rest) }
      match dispatchRoute queued with
      | Route.live =>
        match env.ytVideo h.vidid with
        | none => some (stBase, effs ++ [Eff.sendMessage h.chat_id "call_6"])
        | some link =>
          if env.playOk link then
            let h2 := { h1 with mystic := some 1, markup := some "tg" }
            some ({ st with queue := some (h2 :: rest) },
              effs ++ [Eff.play chat link video, Eff.sendPhoto h.chat_id "stream_1"])
          else
            some (stBase, effs ++ [Eff.sendMessage h.chat_id "call_6"])
      | Route.download =>
        let effs := effs ++ [Eff.sendMessage h.chat_id "call_7"]
        match env.ytDownload h.vidid with
        | none => some (stBase, effs ++ [Eff.editMessage h.chat_id "call_6"])
        | some fp =>
          if env.playOk fp then
            let h2 := { h1 with mystic := some 1, markup := some "stream" }
            some ({ st with queue := some (h2 :: rest) },
              effs ++ [Eff.play chat fp video, Eff.deleteMessage h.chat_id,
                Eff.sendPhoto h.chat_id "stream_1"])
          else
            some (stBase, effs ++ [Eff.sendMessage h.chat_id "call_6"])
      | Route.index =>
        -- `client.play(chat_id, MediaStream(videoid))`: unlike the other
        -- routes, the source passes no video flags here.
        if env.playOk h.vidid then
          let h2 := { h1 with mystic := some 1, markup := some "tg" }
          some ({ st with queue := some (h2 :: rest) },
            effs ++ [Eff.play chat h.vidid false, Eff.sendPhoto h.chat_id "stream_2"])
        else
          some (stBase, effs ++ [Eff.sendMessage h.chat_id "call_6"])
      | Route.direct =>
        if env.playOk queued then
          let mk := if h.vidid == "telegram" || h.vidid == "soundcloud"
            then "tg" else "stream"
          let h2 := { h1 with mystic := some 1, markup := some mk }
          some ({ st with queue := some (h2 :: rest) },
            effs ++ [Eff.play chat queued video, Eff.sendPhoto h.chat_id "stream_1"])
        else
          some (stBase, effs ++ [Eff.sendMessage h.chat_id "call_6"])

/-- `change_stream(client, chat_id)`: read the loop counter; at 0 pop
the head (a pop on a missing or empty queue raises and is caught by the
handler, which clears state and leaves the call), otherwise decrement
the counter and keep the queue; run `auto_clean` on the popped track
(modelled as non-failing, per its fire-and-forget contract); if the
queue is now empty, clear state and leave the call; otherwise resolve
and play the new head (`advanceQueue`).  The overall `none` marks an
uncaught exception escaping the `else` branch. -/
def change_stream (env : Env) (chat : Int) (st : ChatState) :
    Option (ChatState × List Eff) :=
  match st.loop, st.queue with
  | 0, none =>
    -- `check.pop(0)` on `None`: AttributeError, caught by the handler.
    some (clear_state st, [Eff.leaveCall chat])
  | 0, some [] =>
    -- `check.pop(0)` on an empty list: IndexError, caught by the handler.
    some (clear_state st, [Eff.leaveCall chat])
  | 0, some (t :: rest) =>
    let effs := [Eff.autoClean (some t)]
    if rest.isEmpty then
      some (clear_state st, effs ++ [Eff.leaveCall chat])
    else
      advanceQueue env chat st rest effs
  | n + 1, check =>
    let st1 := { st with loop := n }
    let effs := [Eff.setLoop chat n, Eff.autoClean none]
    match check with
    | none => some (clear_state st1, effs ++ [Eff.leaveCall chat])
    | some [] => some (clear_state st1, effs ++ [Eff.leaveCall chat])
    | some (t :: rest) => advanceQueue env chat st1 (t :: rest) effs

/-- Identity of a track: the fields that name which track it is, never
touched by the playback-bookkeeping mutations. -/
def sameTrack (a b : Track) : Prop :=
  a.file = b.file ∧ a.title = b.title ∧ a.by_user = b.by_user ∧
    a.chat_id = b.chat_id ∧ a.streamtype = b.streamtype ∧ a.vidid = b.vidid

instance (a b : Track) : Decidable (sameTrack a b) := by
  unfold sameTrack; infer_instance

/-- Whether an event is an engine `play` command. -/
def isPlayEff : Eff → Bool
  | Eff.play _ _ _ => true
  | _ => false

/-- Result of an operation that may raise: `err` carries the message of
a raised exception (`AssistantErr` or a Python builtin), `state` is the
chat state after the call, `effs` the outbound events that happened. -/
structure OpResult where
  err : Option String
  state : ChatState
  effs : List Eff
deriving Repr

/-- `os.path.basename`: the component after the last `/`. -/
def basename (p : String) : String :=
  match (p.splitOn "/").reverse with
  | [] => p
  | last :: _ => last

/-- `speedup_stream(chat_id, file_path, speed, playing)`: for a
non-1.0 speed, derive the per-speed cache path and transcode with
ffmpeg unless cached; read the new duration and the speed-adjusted
position; then, only if the current queue head's `file` still equals
`file_path`, play the (possibly transcoded) file and write the
bookkeeping fields back into the head — otherwise raise
`AssistantErr("Umm")` with no mutation.  `playing` is the caller's
snapshot of the queue (the source reads `playing[0]["played"]`). -/
def speedup_stream (env : Env) (chat : Int) (st : ChatState)
    (file_path : String) (speed : String) (playing : List Track) : OpResult :=
  let cached := speed == "1.0"
  let out := if cached then file_path
    else "playback/" ++ speed ++ "/" ++ basename file_path
  let effs := if cached || env.fileExists out then []
    else [Eff.ffmpeg file_path out]
  match playing with
  | [] => { err := some "IndexError", state := st, effs := effs }
  | p0 :: _ =>
    let dur := env.check_duration out
    let con_seconds := (env.speed_converter p0.played speed).2
    let duration := env.seconds_to_min dur
    match st.queue with
    | none => { err := some "KeyError", state := st, effs := effs }
    | some [] => { err := some "IndexError", state := st, effs := effs }
    | some (h :: rest) =>
      if h.file == file_path then
        let effs := effs ++ [Eff.play chat out false]
        let h1 :=
          if h.old_dur.isNone then
            { h with old_dur := some h.dur, old_second := some h.seconds }
          else h
        let h2a := { h1 with played := con_seconds, dur := duration }
        let h2 := { h2a with seconds := Int.ofNat dur,
                             speed_path := some out, speed := speed }
        { err := none, state := { st with queue := some (h2 :: rest) },
                       effs := effs }
      else
        { err := some "Umm", state := st, effs := effs }

/-- The per-assistant loop of `stop_stream_force`: try `leave_call` on
every configured assistant in order; a failing leave is logged and the
loop continues.  `assistants` lists which of the five slots are
configured; `leaveFails i` tells whether slot `i`'s leave raises. -/
def leaveAll (idx : Nat) (assistants : List Bool) (leaveFails : Nat → Bool)
    (chat : Int) : List Eff :=
  match assistants with
  | [] => []
  | a :: rest =>
    (if a then
      Eff.assistantLeave idx chat ::
        (if leaveFails idx then [Eff.logError "force stop"] else [])
     else []) ++ leaveAll (idx + 1) rest leaveFails chat

/-- `stop_stream_force(chat_id)`: attempt `leave_call` on every
configured assistant (failures logged, loop never aborted), then clear
the chat's state. -/
def stop_stream_force (assistants : List Bool) (leaveFails : Nat → Bool)
    (chat : Int) (st : ChatState) : ChatState × List Eff :=
  (clear_state st, leaveAll 0 assistants leaveFails chat)

/-- The substring classification of `join_call`'s play failure: the
lowered exception text is matched against `"no active"`/`"not found"`
(no open voice chat, `call_8`), then `"already"`/`"joined"`
(`call_9`), else the generic `call_10`. -/
def classify_join_error (msg : String) : String :=
  let m := msg.toLower
  if pyIn "no active" m || pyIn "not found" m then "call_8"
  else if pyIn "already" m || pyIn "joined" m then "call_9"
  else "call_10"

/-- `join_call(chat_id, original_chat_id, link, video, image)`: play
the link (HD video flags when `video`); on an engine exception raise
the localized `AssistantErr` chosen by `classify_join_error` and
change nothing; on success mark the chat active (and video-active when
`video`), mark music on, and when autoend is enabled record a fresh
counter and, with exactly one participant, a deadline one minute out. -/
def join_call (env : Env) (chat : Int) (st : ChatState) (link : String)
    (video : Bool) : OpResult :=
  match env.joinPlay with
  | some msg =>
    { err := some (classify_join_error msg), state := st, effs := [] }
  | none =>
    let effs := [Eff.play chat link video]
    let st1 := { st with activeChat := true, musicOn := true }
    let st2 := if video then { st1 with activeVideoChat := true } else st1
    if env.is_autoend then
      let st3 := { st2 with counterSet := true }
      match env.participants with
      | none => { err := none, state := st3,
                  effs := effs ++ [Eff.logError "participants"] }
      | some users =>
        if users == 1 then
          { err := none,
            state := { st3 with autoendDeadline := some (env.now + 60) },
            effs := effs }
        else { err := none, state := st3, effs := effs }
    else { err := none, state := st2, effs := effs }

/-- One of the five assistant slots as `ping()` sees it: not
configured (no session string or no client), a client whose `ping`
read raises, or a reported ping value (modelled as an exact rational). -/
inductive PingSlot where
  | unconfigured
  | errored
  | value (p : ℚ)
deriving DecidableEq

/-- The collection loop of `ping()`: keep a slot's sample only when the
slot is configured, the read does not raise, and the value is truthy
and positive. -/
def collectPings (slots : List PingSlot) : List ℚ :=
  slots.filterMap fun s =>
    match s with
    | PingSlot.value p => if 0 < p then some p else none
    | _ => none

/-- Python's `round(x, 3)`: round to the nearest thousandth, ties to
even, returned as the integer number of thousandths. -/
def roundMilli (q : ℚ) : ℤ :=
  let x := 1000 * q
  let f := x.floor
  let r := x - (f : ℚ)
  if r < 1 / 2 then f
  else if 1 / 2 < r then f + 1
  else if f % 2 = 0 then f else f + 1

/-- Python's `str` of the rounded float: integer part, a dot, and the
fractional thousandths with trailing zeros dropped (at least one
digit). -/
def renderMilli (r : ℤ) : String :=
  let sign := if r < 0 then "-" else ""
  let a := r.natAbs
  let ip := a / 1000
  let fr := a % 1000
  let fracStr :=
    if fr % 10 ≠ 0 then
      (if fr < 10 then "00" else if fr < 100 then "0" else "") ++ natStr fr
    else if fr % 100 ≠ 0 then
      (if fr / 10 < 10 then "0" else "") ++ natStr (fr / 10)
    else natStr (fr / 100)
  sign ++ natStr ip ++ "." ++ fracStr

/-- `ping()`: average the collected positive samples of the configured
assistants and render `round(avg, 3)`; with no samples return
`"0.0"`. -/
def ping (slots : List PingSlot) : String :=
  let pings := collectPings slots
  if pings.isEmpty then "0.0"
  else renderMilli (roundMilli (pings.sum / (pings.length : ℚ)))

/-! Concrete fixtures used by the counterexamples and witnesses. -/

/-- A queue entry with the given `file`, `vidid` and `played` fields. -/
def trackW (f v : String) (pl : Int) : Track :=
  { file := f, title := "song", by_user := "user", chat_id := 7,
    streamtype := "audio", vidid := v, played := pl, dur := "3:00", seconds := 180 }

/-- Environment in which every resolution and every engine play fails. -/
def envNever : Env :=
  { ytVideo := fun _ => none, ytDownload := fun _ => none, playOk := fun _ => false }

/-- Environment in which every resolution and every engine play succeeds. -/
def envAllOk : Env :=
  { ytVideo := fun _ => some "LIVESRC", ytDownload := fun _ => some "DLFILE",
    playOk := fun _ => true }

/-- A chat with loop counter 1 whose single queued track has `played = 5`. -/
def stLoopCE : ChatState :=
  { queue := some [trackW "song.mp3" "v1" 5], loop := 1,
    activeChat := true, activeVideoChat := false, musicOn := true }

/-- A chat advancing onto a head whose `file` is `vid_live_abc`. -/
def stRouteCE : ChatState :=
  { queue := some [trackW "done.mp3" "v0" 0, trackW "vid_live_abc" "v4" 0],
    loop := 0, activeChat := true, activeVideoChat := false, musicOn := true }

/-- A two-track queue about to advance. -/
def stPopsW : ChatState :=
  { queue := some [trackW "a.mp3" "va" 3, trackW "b.mp3" "vb" 4], loop := 0,
    activeChat := true, activeVideoChat := false, musicOn := true }

/-- A one-track queue with loop counter 2. -/
def stLoopW : ChatState :=
  { queue := some [trackW "b.mp3" "vb" 4], loop := 2,
    activeChat := true, activeVideoChat := false, musicOn := true }

/-- A one-track queue with loop counter 0, about to tear down. -/
def stTearW : ChatState :=
  { queue := some [trackW "a.mp3" "va" 3], loop := 0,
    activeChat := true, activeVideoChat := true, musicOn := true }

/-- A chat with no queue-map entry at all. -/
def stNoQueueW : ChatState :=
  { queue := none, loop := 0,
    activeChat := true, activeVideoChat := false, musicOn := true }

/-- A queue advancing onto a `live_` head. -/
def stLiveW : ChatState :=
  { queue := some [trackW "done.mp3" "v0" 0, trackW "live_x" "vb" 2], loop := 0,
    activeChat := true, activeVideoChat := false, musicOn := true }

/-- A queue advancing onto a `vid_` head. -/
def stVidW : ChatState :=
  { queue := some [trackW "done.mp3" "v0" 0, trackW "vid_abc" "vb" 2], loop := 0,
    activeChat := true, activeVideoChat := false, musicOn := true }

/-- A chat whose current head is `cur.mp3`. -/
def stSpeedW : ChatState :=
  { queue := some [trackW "cur.mp3" "vc" 9], loop := 0,
    activeChat := true, activeVideoChat := false, musicOn := true }

/-- Leave failure pattern in which assistants 0 and 1 throw (2 of 5). -/
def failsTwo : Nat → Bool := fun i => decide (i < 2)

/-- An active chat about to be force-stopped. -/
def stForceW : ChatState :=
  { queue := some [trackW "a.mp3" "va" 3], loop := 0,
    activeChat := true, activeVideoChat := true, musicOn := true }

/-- Environment whose `join_call` play attempt raises an
already-joined error. -/
def envJoinErr : Env :=
  { ytVideo := fun _ => none, ytDownload := fun _ => none,
    playOk := fun _ => false, joinPlay := some "Already joined the group call" }

/-- An inactive chat about to join. -/
def stJoinW : ChatState :=
  { queue := some [trackW "a.mp3" "va" 3], loop := 0,
    activeChat := false, activeVideoChat := false, musicOn := false }

/-! Helper lemmas about the queue-advance step. -/

/-- The head bookkeeping step succeeds whenever `old_second` is present
when `old_dur` is, and it never changes the track's identity fields. -/
lemma advHead_some (t : Track) (hdef : t.old_dur.isSome → t.old_second.isSome) :
    ∃ t', advHead t = some t' ∧ sameTrack t' t := by
  unfold advHead
  cases hod : t.old_dur with
  | none => exact ⟨_, rfl, by simp [sameTrack]⟩
  | some d =>
    cases hos : t.old_second with
    | none =>
      have := hdef (by simp [hod])
      simp [hos] at this
    | some s =>
      exact ⟨{ t with played := 0, dur := d, seconds := s, speed_path := none, speed := "1.0" }, by simp [hod, hos], by simp [sameTrack]⟩

/-- On a non-empty queue whose head satisfies the speed-snapshot
invariant, `advanceQueue` always returns: the tail is untouched, the
head keeps its identity fields, the flags and loop counter are
untouched, and the incoming event prefix is preserved. -/
lemma advanceQueue_some (env : Env) (chat : Int) (st : ChatState) (h : Track)
    (rest : List Track) (effs : List Eff)
    (hdef : h.old_dur.isSome → h.old_second.isSome) :
    ∃ st' effs2 h', advanceQueue env chat st (h :: rest) effs = some (st', effs2) ∧
      st'.queue = some (h' :: rest) ∧ sameTrack h' h ∧
      st'.loop = st.loop ∧ st'.activeChat = st.activeChat ∧
      st'.activeVideoChat = st.activeVideoChat ∧ st'.musicOn = st.musicOn ∧
      ∃ extra, effs2 = effs ++ extra := by
  obtain ⟨h1, hh1, hsame⟩ := advHead_some h hdef
  have hs2 : ∀ (m : Option Nat) (mk : Option String),
      sameTrack { h1 with mystic := m, markup := mk } h := by
    intro m mk
    simpa [sameTrack] using hsame
  simp only [advanceQueue, hh1]
  split <;> (try split) <;> (try split)
  all_goals first
    | exact ⟨_, _, _, rfl, rfl, hsame, rfl, rfl, rfl, rfl, _, rfl⟩
    | exact ⟨_, _, _, rfl, rfl, hs2 _ _, rfl, rfl, rfl, rfl, _, rfl⟩
    | exact ⟨_, _, _, rfl, rfl, hsame, rfl, rfl, rfl, rfl, _, List.append_assoc _ _ _⟩

/-- With loop 0 and at least two queued tracks, `change_stream` is the
pop of the finished head followed by the advance on the remainder. -/
lemma change_stream_step (env : Env) (chat : Int) (st : ChatState)
    (t1 t2 : Track) (rest : List Track)
    (hl : st.loop = 0) (hq : st.queue = some (t1 :: t2 :: rest)) :
    change_stream env chat st =
      advanceQueue env chat st (t2 :: rest) [Eff.autoClean (some t1)] := by
  simp [change_stream, hl, hq]

/-- With a positive loop counter and a non-empty queue, `change_stream`
is the decrement of the external loop store followed by the advance on
the unchanged queue. -/
lemma change_stream_loop_step (env : Env) (chat : Int) (st : ChatState)
    (t : Track) (rest : List Track) (n : Nat)
    (hl : st.loop = n + 1) (hq : st.queue = some (t :: rest)) :
    change_stream env chat st =
      advanceQueue env chat { st with loop := n } (t :: rest)
        [Eff.setLoop chat n, Eff.autoClean none] := by
  simp [change_stream, hl, hq]

/-- Live route with failing resolution: notify the announce chat. -/
lemma advanceQueue_live_fail (env : Env) (chat : Int) (st : ChatState)
    (h h1 : Track) (rest : List Track) (effs : List Eff)
    (hh1 : advHead h = some h1) (hr : dispatchRoute h.file = Route.live)
    (hyv : env.ytVideo h.vidid = none) :
    advanceQueue env chat st (h :: rest) effs =
      some ({ st with queue := some (h1 :: rest) },
        effs ++ [Eff.sendMessage h.chat_id "call_6"]) := by
  simp [advanceQueue, hh1, hr, hyv]

/-- Live route with successful resolution and play. -/
lemma advanceQueue_live_ok (env : Env) (chat : Int) (st : ChatState)
    (h h1 : Track) (rest : List Track) (effs : List Eff) (link : String)
    (hh1 : advHead h = some h1) (hr : dispatchRoute h.file = Route.live)
    (hyv : env.ytVideo h.vidid = some link) (hpk : env.playOk link = true) :
    advanceQueue env chat st (h :: rest) effs =
      some ({ st with queue := some ({ h1 with mystic := some 1, markup := some "tg" } :: rest) },
        effs ++ [Eff.play chat link (h.streamtype == "video"),
          Eff.sendPhoto h.chat_id "stream_1"]) := by
  simp [advanceQueue, hh1, hr, hyv, hpk]

/-- Download route with failing download: the downloading notice is
edited into the failure text. -/
lemma advanceQueue_download_fail (env : Env) (chat : Int) (st : ChatState)
    (h h1 : Track) (rest : List Track) (effs : List Eff)
    (hh1 : advHead h = some h1) (hr : dispatchRoute h.file = Route.download)
    (hyd : env.ytDownload h.vidid = none) :
    advanceQueue env chat st (h :: rest) effs =
      some ({ st with queue := some (h1 :: rest) },
        effs ++ [Eff.sendMessage h.chat_id "call_7",
          Eff.editMessage h.chat_id "call_6"]) := by
  simp [advanceQueue, hh1, hr, hyd]

/-- Download route with successful download and play. -/
lemma advanceQueue_download_ok (env : Env) (chat : Int) (st : ChatState)
    (h h1 : Track) (rest : List Track) (effs : List Eff) (fp : String)
    (hh1 : advHead h = some h1) (hr : dispatchRoute h.file = Route.download)
    (hyd : env.ytDownload h.vidid = some fp) (hpk : env.playOk fp = true) :
    advanceQueue env chat st (h :: rest) effs =
      some ({ st with queue := some ({ h1 with mystic := some 1, markup := some "stream" } :: rest) },
        effs ++ [Eff.sendMessage h.chat_id "call_7",
          Eff.play chat fp (h.streamtype == "video"),
          Eff.deleteMessage h.chat_id, Eff.sendPhoto h.chat_id "stream_1"]) := by
  simp [advanceQueue, hh1, hr, hyd, hpk]

/-- Index route with successful play of the raw `vidid` source; the
source passes no video flags on this route, whatever `streamtype`
says. -/
lemma advanceQueue_index_ok (env : Env) (chat : Int) (st : ChatState)
    (h h1 : Track) (rest : List Track) (effs : List Eff)
    (hh1 : advHead h = some h1) (hr : dispatchRoute h.file = Route.index)
    (hpk : env.playOk h.vidid = true) :
    advanceQueue env chat st (h :: rest) effs =
      some ({ st with queue := some ({ h1 with mystic := some 1, markup := some "tg" } :: rest) },
        effs ++ [Eff.play chat h.vidid false,
          Eff.sendPhoto h.chat_id "stream_2"]) := by
  simp [advanceQueue, hh1, hr, hpk]

/-- Direct route with successful play of the `file` value itself. -/
lemma advanceQueue_direct_ok (env : Env) (chat : Int) (st : ChatState)
    (h h1 : Track) (rest : List Track) (effs : List Eff)
    (hh1 : advHead h = some h1) (hr : dispatchRoute h.file = Route.direct)
    (hpk : env.playOk h.file = true) :
    advanceQueue env chat st (h :: rest) effs =
      some ({ st with queue := some ({ h1 with mystic := some 1, markup := some (if h.vidid == "telegram" || h.vidid == "soundcloud" then "tg" else "stream") } :: rest) },
        effs ++ [Eff.play chat h.file (h.streamtype == "video"),
          Eff.sendPhoto h.chat_id "stream_1"]) := by
  by_cases hv : (h.vidid == "telegram" || h.vidid == "soundcloud") = true <;>
    simp [advanceQueue, hh1, hr, hpk, hv]

/-! The claims. -/

/-- Claim C1: for a chat with loop counter 0 and at least two queued
tracks, one `change_stream` removes exactly the head: the resulting
queue is the old tail (its own tail untouched), and the track that was
second now sits at the head, identified by its identity fields (its
playback bookkeeping is reset as part of starting it). -/
theorem change_stream_pops_head (env : Env) (chat : Int) (st : ChatState)
    (t1 t2 : Track) (rest : List Track)
    (hl : st.loop = 0) (hq : st.queue = some (t1 :: t2 :: rest))
    (hdef : t2.old_dur.isSome → t2.old_second.isSome) :
    ∃ st' effs t2', change_stream env chat st = some (st', effs) ∧
      st'.queue = some (t2' :: rest) ∧ sameTrack t2' t2 := by
  obtain ⟨st', effs2, h', heq, hqueue, hsame, -⟩ :=
    advanceQueue_some env chat st t2 rest [Eff.autoClean (some t1)] hdef
  exact ⟨st', effs2, h', by rw [change_stream_step env chat st t1 t2 rest hl hq]; exact heq,
    hqueue, hsame⟩

/-- Claim C1 witness. -/
theorem change_stream_pops_head_witness :
    ∃ st' effs t2', change_stream envNever 7 stPopsW = some (st', effs) ∧
      st'.queue = some (t2' :: ([] : List Track)) ∧
      sameTrack t2' (trackW "b.mp3" "vb" 4) :=
  change_stream_pops_head envNever 7 stPopsW (trackW "a.mp3" "va" 3)
    (trackW "b.mp3" "vb" 4) [] rfl rfl (by decide)

/-- Claim C2 counterexample: with loop counter 1 and a single queued
track whose `played` field is 5, `change_stream` leaves the same track
queued but resets its `played` field to 0 (line `db[chat_id][0]["played"] = 0`
runs on the repeat path too), so the queue is not left unchanged and
the head is not the same descriptor value as before the call. -/
theorem change_stream_loop_counterexample :
    stLoopCE.loop = 1 ∧ (trackW "song.mp3" "v1" 5).played = 5 ∧
    stLoopCE.queue = some [trackW "song.mp3" "v1" 5] ∧
    (change_stream envNever 7 stLoopCE).map (fun r => r.1.queue) =
      some (some [{ trackW "song.mp3" "v1" 5 with played := 0 }]) ∧
    ((change_stream envNever 7 stLoopCE).map (fun r => r.1.queue) =
      some stLoopCE.queue → False) := by
  decide

/-- Claim C2 as amended: with loop counter N+1 and a non-empty queue,
`change_stream` writes N to the external loop store, removes no
element (the tail is untouched and the head slot is still occupied by
the same track, identified by its identity fields), though the head's
playback bookkeeping is reset (`played := 0`, speed override restored)
as part of restarting the repeated track. -/
theorem change_stream_loop_decrement (env : Env) (chat : Int) (st : ChatState)
    (t : Track) (rest : List Track) (n : Nat)
    (hl : st.loop = n + 1) (hq : st.queue = some (t :: rest))
    (hdef : t.old_dur.isSome → t.old_second.isSome) :
    ∃ st' effs t', change_stream env chat st = some (st', effs) ∧
      st'.loop = n ∧ Eff.setLoop chat n ∈ effs ∧
      st'.queue = some (t' :: rest) ∧ sameTrack t' t := by
  obtain ⟨st', effs2, h', heq, hqueue, hsame, hloop, -, -, -, extra, hext⟩ :=
    advanceQueue_some env chat { st with loop := n } t rest
      [Eff.setLoop chat n, Eff.autoClean none] hdef
  refine ⟨st', effs2, h', ?_, hloop, ?_, hqueue, hsame⟩
  · rw [change_stream_loop_step env chat st t rest n hl hq]; exact heq
  · rw [hext]; simp

/-- Claim C2 (amended) witness. -/
theorem change_stream_loop_decrement_witness :
    ∃ st' effs t', change_stream envNever 7 stLoopW = some (st', effs) ∧
      st'.loop = 1 ∧ Eff.setLoop 7 1 ∈ effs ∧
      st'.queue = some (t' :: ([] : List Track)) ∧
      sameTrack t' (trackW "b.mp3" "vb" 4) :=
  change_stream_loop_decrement envNever 7 stLoopW (trackW "b.mp3" "vb" 4) [] 1
    rfl rfl (by decide)

/-- Claim C3: advancing a one-track queue with loop counter 0 empties
the queue entry, clears the active-chat and active-video-chat flags,
and issues exactly one `leave_call` for the chat. -/
theorem change_stream_empty_teardown (env : Env) (chat : Int) (st : ChatState)
    (t : Track) (hl : st.loop = 0) (hq : st.queue = some [t]) :
    ∃ st' effs, change_stream env chat st = some (st', effs) ∧
      st'.queue = some [] ∧ st'.activeChat = false ∧ st'.activeVideoChat = false ∧
      effs = [Eff.autoClean (some t), Eff.leaveCall chat] ∧
      effs.count (Eff.leaveCall chat) = 1 := by
  refine ⟨clear_state st, [Eff.autoClean (some t), Eff.leaveCall chat],
    ?_, rfl, rfl, rfl, rfl, ?_⟩
  · simp [change_stream, hl, hq]
  · simp [List.count_cons]

/-- Claim C3 witness. -/
theorem change_stream_empty_teardown_witness :
    ∃ st' effs, change_stream envNever 7 stTearW = some (st', effs) ∧
      st'.queue = some [] ∧ st'.activeChat = false ∧ st'.activeVideoChat = false ∧
      effs = [Eff.autoClean (some (trackW "a.mp3" "va" 3)), Eff.leaveCall 7] ∧
      effs.count (Eff.leaveCall 7) = 1 :=
  change_stream_empty_teardown envNever 7 stTearW (trackW "a.mp3" "va" 3) rfl rfl

/-- Claim C4 counterexample: the dispatch is by substring containment
tested in the order `live_`, `vid_`, `index_`, not by the marker's
leading segment.  The head `vid_live_abc` does start with `vid_`, yet
`change_stream` takes the live-resolution path: the emitted events are
exactly the live-path events (a play of the live lookup's link), the
download notice `call_7` is never sent, and the downloaded file is
never played. -/
theorem change_stream_marker_routing_counterexample :
    leadMatch "vid_".toList (trackW "vid_live_abc" "v4" 0).file.toList = true ∧
    dispatchRoute (trackW "vid_live_abc" "v4" 0).file = Route.live ∧
    (change_stream envAllOk 7 stRouteCE).map (fun r => r.2) =
      some [Eff.autoClean (some (trackW "done.mp3" "v0" 0)),
        Eff.play 7 "LIVESRC" false, Eff.sendPhoto 7 "stream_1"] ∧
    (change_stream envAllOk 7 stRouteCE).map
      (fun r => r.2.contains (Eff.sendMessage 7 "call_7")) = some false ∧
    (change_stream envAllOk 7 stRouteCE).map
      (fun r => r.2.contains (Eff.play 7 "DLFILE" false)) = some false := by
  decide

/-- Claim C4 as amended: during the advance the new head's resolution
path is decided by substring containment on its `file` value, tested
in the order `live_`, `vid_`, `index_`: a head containing `live_`
takes the live path (and plays the resolved link); one containing
`vid_` but not `live_` takes the download path (announcing the
download notice `call_7`); one containing `index_` but neither earlier
marker is played as the raw engine-native `vidid` source without video
flags; one containing no marker is played directly as its `file`
URL/path.  In particular heads whose `file` begins with a marker and
embeds no earlier marker route as the original claim says. -/
theorem change_stream_marker_routing_amended (env : Env) (chat : Int)
    (st : ChatState) (t1 t2 : Track) (rest : List Track)
    (hl : st.loop = 0) (hq : st.queue = some (t1 :: t2 :: rest))
    (hdef : t2.old_dur.isSome → t2.old_second.isSome) :
    (pyIn "live_" t2.file = true →
      ∀ link, env.ytVideo t2.vidid = some link → env.playOk link = true →
      ∃ st' effs, change_stream env chat st = some (st', effs) ∧
        Eff.play chat link (t2.streamtype == "video") ∈ effs) ∧
    (pyIn "live_" t2.file = false → pyIn "vid_" t2.file = true →
      ∃ st' effs, change_stream env chat st = some (st', effs) ∧
        Eff.sendMessage t2.chat_id "call_7" ∈ effs) ∧
    (pyIn "live_" t2.file = false → pyIn "vid_" t2.file = false →
      pyIn "index_" t2.file = true → env.playOk t2.vidid = true →
      ∃ st' effs, change_stream env chat st = some (st', effs) ∧
        Eff.play chat t2.vidid false ∈ effs) ∧
    (pyIn "live_" t2.file = false → pyIn "vid_" t2.file = false →
      pyIn "index_" t2.file = false → env.playOk t2.file = true →
      ∃ st' effs, change_stream env chat st = some (st', effs) ∧
        Eff.play chat t2.file (t2.streamtype == "video") ∈ effs) := by
  obtain ⟨h1, hh1, hsame⟩ := advHead_some t2 hdef
  rw [change_stream_step env chat st t1 t2 rest hl hq]
  refine ⟨?_, ?_, ?_, ?_⟩
  · intro hlive link hyv hpk
    have hr : dispatchRoute t2.file = Route.live := by
      simp [dispatchRoute, hlive]
    rw [advanceQueue_live_ok env chat st t2 h1 rest _ link hh1 hr hyv hpk]
    exact ⟨_, _, rfl, by simp⟩
  · intro hlive hvid
    have hr : dispatchRoute t2.file = Route.download := by
      simp [dispatchRoute, hlive, hvid]
    rcases hyd : env.ytDownload t2.vidid with _ | fp
    · rw [advanceQueue_download_fail env chat st t2 h1 rest _ hh1 hr hyd]
      exact ⟨_, _, rfl, by simp⟩
    · rcases hpk : env.playOk fp with _ | _
      · have : advanceQueue env chat st (t2 :: rest) [Eff.autoClean (some t1)] =
          some ({ st with queue := some (h1 :: rest) },
            [Eff.autoClean (some t1)] ++ [Eff.sendMessage t2.chat_id "call_7",
              Eff.sendMessage t2.chat_id "call_6"]) := by
          simp [advanceQueue, hh1, hr, hyd, hpk]
        rw [this]
        exact ⟨_, _, rfl, by simp⟩
      · rw [advanceQueue_download_ok env chat st t2 h1 rest _ fp hh1 hr hyd hpk]
        exact ⟨_, _, rfl, by simp⟩
  · intro hlive hvid hidx hpk
    have hr : dispatchRoute t2.file = Route.index := by
      simp [dispatchRoute, hlive, hvid, hidx]
    rw [advanceQueue_index_ok env chat st t2 h1 rest _ hh1 hr hpk]
    exact ⟨_, _, rfl, by simp⟩
  · intro hlive hvid hidx hpk
    have hr : dispatchRoute t2.file = Route.direct := by
      simp [dispatchRoute, hlive, hvid, hidx]
    rw [advanceQueue_direct_ok env chat st t2 h1 rest _ hh1 hr hpk]
    exact ⟨_, _, rfl, by simp⟩

/-- Claim C4 (amended) witness: a `vid_` head (with no `live_` inside)
takes the download path. -/
theorem change_stream_marker_routing_amended_witness :
    ∃ st' effs, change_stream envNever 7 stVidW = some (st', effs) ∧
      Eff.sendMessage 7 "call_7" ∈ effs :=
  (change_stream_marker_routing_amended envNever 7 stVidW
    (trackW "done.mp3" "v0" 0) (trackW "vid_abc" "vb" 2) [] rfl rfl
    (by decide)).2.1 (by decide) (by decide)

/-- Claim C5: a `speedup_stream` call whose `file_path` differs from
the current queue head's `file` raises the generic
`AssistantErr("Umm")` and leaves the whole chat state (in particular
the head's `played`, `dur`, `seconds`, `speed`, `speed_path`,
`old_dur` and `old_second` fields) exactly as it was. -/
theorem speedup_stream_stale_guard (env : Env) (chat : Int) (st : ChatState)
    (file_path speed : String) (h : Track) (rest : List Track)
    (p0 : Track) (ps : List Track)
    (hq : st.queue = some (h :: rest)) (hne : h.file ≠ file_path) :
    (speedup_stream env chat st file_path speed (p0 :: ps)).err = some "Umm" ∧
    (speedup_stream env chat st file_path speed (p0 :: ps)).state = st := by
  have hbeq : (h.file == file_path) = false := by
    simp [hne]
  simp [speedup_stream, hq, hbeq]

/-- Claim C5 witness. -/
theorem speedup_stream_stale_guard_witness :
    (speedup_stream envNever 7 stSpeedW "other.mp3" "1.5"
      [trackW "cur.mp3" "vc" 9]).err = some "Umm" ∧
    (speedup_stream envNever 7 stSpeedW "other.mp3" "1.5"
      [trackW "cur.mp3" "vc" 9]).state = stSpeedW :=
  speedup_stream_stale_guard envNever 7 stSpeedW "other.mp3" "1.5"
    (trackW "cur.mp3" "vc" 9) [] (trackW "cur.mp3" "vc" 9) [] rfl (by decide)

/-- Claim C6: when the new head after the pop takes the live or the
download path and the resolution fails, `change_stream` reports
`call_6` to the track's original announce chat, leaves the failing
track at the head of the queue (tail untouched, head identified by its
identity fields), and emits no engine play event at all. -/
theorem change_stream_resolution_failure_wedges (env : Env) (chat : Int)
    (st : ChatState) (t1 t2 : Track) (rest : List Track)
    (hl : st.loop = 0) (hq : st.queue = some (t1 :: t2 :: rest))
    (hdef : t2.old_dur.isSome → t2.old_second.isSome) :
    (pyIn "live_" t2.file = true → env.ytVideo t2.vidid = none →
      ∃ st' effs t2', change_stream env chat st = some (st', effs) ∧
        Eff.sendMessage t2.chat_id "call_6" ∈ effs ∧
        st'.queue = some (t2' :: rest) ∧ sameTrack t2' t2 ∧
        ∀ e ∈ effs, isPlayEff e = false) ∧
    (pyIn "live_" t2.file = false → pyIn "vid_" t2.file = true →
      env.ytDownload t2.vidid = none →
      ∃ st' effs t2', change_stream env chat st = some (st', effs) ∧
        Eff.editMessage t2.chat_id "call_6" ∈ effs ∧
        st'.queue = some (t2' :: rest) ∧ sameTrack t2' t2 ∧
        ∀ e ∈ effs, isPlayEff e = false) := by
  obtain ⟨h1, hh1, hsame⟩ := advHead_some t2 hdef
  rw [change_stream_step env chat st t1 t2 rest hl hq]
  constructor
  · intro hlive hyv
    have hr : dispatchRoute t2.file = Route.live := by
      simp [dispatchRoute, hlive]
    rw [advanceQueue_live_fail env chat st t2 h1 rest _ hh1 hr hyv]
    refine ⟨_, _, h1, rfl, by simp, rfl, hsame, ?_⟩
    intro e he
    simp at he
    rcases he with rfl | rfl <;> rfl
  · intro hlive hvid hyd
    have hr : dispatchRoute t2.file = Route.download := by
      simp [dispatchRoute, hlive, hvid]
    rw [advanceQueue_download_fail env chat st t2 h1 rest _ hh1 hr hyd]
    refine ⟨_, _, h1, rfl, by simp, rfl, hsame, ?_⟩
    intro e he
    simp at he
    rcases he with rfl | rfl | rfl <;> rfl

/-- Claim C6 witness: failing live resolution. -/
theorem change_stream_resolution_failure_wedges_witness :
    ∃ st' effs t2', change_stream envNever 7 stLiveW = some (st', effs) ∧
      Eff.sendMessage 7 "call_6" ∈ effs ∧
      st'.queue = some (t2' :: ([] : List Track)) ∧
      sameTrack t2' (trackW "live_x" "vb" 2) ∧
      ∀ e ∈ effs, isPlayEff e = false :=
  (change_stream_resolution_failure_wedges envNever 7 stLiveW
    (trackW "done.mp3" "v0" 0) (trackW "live_x" "vb" 2) [] rfl rfl (by decide)).1
    (by decide) rfl

/-- Claim C7: `ping()` averages the positive samples of the configured
assistants (100, 200, 300 with two unconfigured slots yields the text
`200.0`), and with no usable sample at all it returns the text `0.0`. -/
theorem ping_aggregation :
    ping [PingSlot.value 100, PingSlot.value 200, PingSlot.value 300,
      PingSlot.unconfigured, PingSlot.unconfigured] = "200.0" ∧
    ping [PingSlot.unconfigured, PingSlot.unconfigured, PingSlot.unconfigured,
      PingSlot.unconfigured, PingSlot.unconfigured] = "0.0" ∧
    ∀ slots, collectPings slots = [] → ping slots = "0.0" := by
  refine ⟨?_, ?_, ?_⟩
  · have h1 : collectPings [PingSlot.value 100, PingSlot.value 200, PingSlot.value 300,
        PingSlot.unconfigured, PingSlot.unconfigured] = [100, 200, 300] := by
      simp only [collectPings, List.filterMap_cons, List.filterMap_nil]
      norm_num
    rw [ping, h1]
    norm_num
    have h2 : roundMilli 200 = 200000 := by
      have hf : ((1000 : ℚ) * 200).floor = 200000 := by
        norm_num [Rat.floor_def', Rat.num_ofNat, Rat.den_ofNat]
      simp only [roundMilli, hf]
      norm_num
    rw [h2]
    decide
  · simp [ping, collectPings]
  · intro slots hs
    simp [ping, hs]

/-- Claim C7 witness: five erroring assistants give no sample, so the
result is the text `0.0`. -/
theorem ping_aggregation_witness :
    ping [PingSlot.errored, PingSlot.errored, PingSlot.errored,
      PingSlot.errored, PingSlot.errored] = "0.0" :=
  ping_aggregation.2.2 [PingSlot.errored, PingSlot.errored, PingSlot.errored,
    PingSlot.errored, PingSlot.errored] rfl

/-- Claim C8: with all five assistants configured, `stop_stream_force`
attempts `leave_call` on every one of them whatever the pattern of
leave failures, and still clears the chat state afterwards. -/
theorem stop_stream_force_resilient (leaveFails : Nat → Bool) (chat : Int)
    (st : ChatState) :
    (∀ i, i < 5 → Eff.assistantLeave i chat ∈
      (stop_stream_force [true, true, true, true, true] leaveFails chat st).2) ∧
    (stop_stream_force [true, true, true, true, true] leaveFails chat st).1.queue = some [] ∧
    (stop_stream_force [true, true, true, true, true] leaveFails chat st).1.activeChat = false ∧
    (stop_stream_force [true, true, true, true, true] leaveFails chat st).1.activeVideoChat = false := by
  refine ⟨?_, rfl, rfl, rfl⟩
  intro i hi
  interval_cases i <;>
    · simp only [stop_stream_force, leaveAll]
      split_ifs <;> simp

/-- Claim C8 witness: assistants 0 and 1 throw on leave (2 of 5); all
five leaves are still attempted and the state is cleared. -/
theorem stop_stream_force_resilient_witness :
    Eff.assistantLeave 0 7 ∈
      (stop_stream_force [true, true, true, true, true] failsTwo 7 stForceW).2 ∧
    Eff.assistantLeave 1 7 ∈
      (stop_stream_force [true, true, true, true, true] failsTwo 7 stForceW).2 ∧
    Eff.assistantLeave 2 7 ∈
      (stop_stream_force [true, true, true, true, true] failsTwo 7 stForceW).2 ∧
    Eff.assistantLeave 3 7 ∈
      (stop_stream_force [true, true, true, true, true] failsTwo 7 stForceW).2 ∧
    Eff.assistantLeave 4 7 ∈
      (stop_stream_force [true, true, true, true, true] failsTwo 7 stForceW).2 ∧
    (stop_stream_force [true, true, true, true, true] failsTwo 7 stForceW).1.queue = some [] :=
  ⟨(stop_stream_force_resilient failsTwo 7 stForceW).1 0 (by decide),
   (stop_stream_force_resilient failsTwo 7 stForceW).1 1 (by decide),
   (stop_stream_force_resilient failsTwo 7 stForceW).1 2 (by decide),
   (stop_stream_force_resilient failsTwo 7 stForceW).1 3 (by decide),
   (stop_stream_force_resilient failsTwo 7 stForceW).1 4 (by decide),
   (stop_stream_force_resilient failsTwo 7 stForceW).2.1⟩

/-- Claim C9: when the play attempt inside `join_call` raises, the
message is classified by substring match into exactly one of the three
localized errors `call_8` (no active voice chat), `call_9` (already
joined) or the fallback `call_10`; `join_call` raises that localized
message (the original exception text is swallowed) and performs none
of the success-path state changes: the chat state, including the
active-chat, music-on and active-video-chat flags and the autoend
records, is exactly what it was. -/
theorem join_call_error_classified (env : Env) (chat : Int) (st : ChatState)
    (link : String) (video : Bool) (msg : String)
    (h : env.joinPlay = some msg) :
    (join_call env chat st link video).err = some (classify_join_error msg) ∧
    (classify_join_error msg = "call_8" ∨ classify_join_error msg = "call_9" ∨
      classify_join_error msg = "call_10") ∧
    (join_call env chat st link video).state = st := by
  refine ⟨by simp [join_call, h], ?_, by simp [join_call, h]⟩
  simp only [classify_join_error]
  split_ifs <;> simp

/-- Claim C9 witness. -/
theorem join_call_error_classified_witness :
    (join_call envJoinErr 7 stJoinW "LINK" false).err =
      some (classify_join_error "Already joined the group call") ∧
    (classify_join_error "Already joined the group call" = "call_8" ∨
      classify_join_error "Already joined the group call" = "call_9" ∨
      classify_join_error "Already joined the group call" = "call_10") ∧
    (join_call envJoinErr 7 stJoinW "LINK" false).state = stJoinW :=
  join_call_error_classified envJoinErr 7 stJoinW "LINK" false
    "Already joined the group call" rfl

/-- Claim C10: `change_stream` on a chat with no queue-map entry and
loop counter 0 does not propagate the failed pop: the handler clears
the chat state (empty queue entry, flags dropped) and issues exactly
one `leave_call` for the chat. -/
theorem change_stream_missing_queue (env : Env) (chat : Int) (st : ChatState)
    (hl : st.loop = 0) (hq : st.queue = none) :
    change_stream env chat st = some (clear_state st, [Eff.leaveCall chat]) ∧
      (change_stream env chat st).isSome = true ∧
      (clear_state st).queue = some [] ∧ (clear_state st).activeChat = false ∧
      (clear_state st).activeVideoChat = false ∧
      ([Eff.leaveCall chat] : List Eff).count (Eff.leaveCall chat) = 1 := by
  have h : change_stream env chat st = some (clear_state st, [Eff.leaveCall chat]) := by
    simp [change_stream, hl, hq]
  exact ⟨h, by simp [h], rfl, rfl, rfl, by simp⟩

/-- Claim C10 witness. -/
theorem change_stream_missing_queue_witness :
    change_stream envNever 7 stNoQueueW =
      some (clear_state stNoQueueW, [Eff.leaveCall 7]) ∧
      (change_stream envNever 7 stNoQueueW).isSome = true ∧
      (clear_state stNoQueueW).queue = some [] ∧
      (clear_state stNoQueueW).activeChat = false ∧
      (clear_state stNoQueueW).activeVideoChat = false ∧
      ([Eff.leaveCall 7] : List Eff).count (Eff.leaveCall 7) = 1 :=
  change_stream_missing_queue envNever 7 stNoQueueW rfl rfl
